import Mathlib

/-!
Shallow embedding of `server/events/markdown_renderer.go` from the
atlantis repository, together with theorems checking the natural
language specification of that file against the code.

The Go file renders the outcome of a multi-project command
(top-level error, top-level failure, or a list of per-project results)
into one markdown string, using a fixed set of `text/template`
templates.  The embedding below mirrors that structure:

* the fixed templates are represented as abstract syntax (`TmplNode`),
  and `execTemplate` is the (fallible) template execution function,
  modelling the behaviour of `text/template` on exactly the constructs
  the fixed templates use: literal text, field access, a conditional
  block, `len` of a field, and `range` over a `map[string]string`
  (which Go templates iterate in sorted key order);
* the Go `map[string]string` is an association list with
  overwrite-on-insert (`mapInsert`) and sorted iteration (`sortByKey`);
* the pointer write `result.PlanSuccess.LockURL = ...` on line 87 of
  the source is translated by explicit state passing: the functions
  return the updated values next to the rendered string
  (`projectFragment`, `renderProjectResults`, `RenderFull`), and
  `Render` is the string component, matching the Go signature.
-/

/-! ## Strings: Go comparison and helper notions -/

/-- Lexicographic comparison of character lists by code point, the
order Go uses on strings (byte-wise comparison agrees with code-point
comparison for UTF-8). -/
def ltCh : List Char → List Char → Bool
  | [], [] => false
  | [], _ :: _ => true
  | _ :: _, [] => false
  | c :: cs, d :: ds =>
    if c.val < d.val then true
    else if d.val < c.val then false
    else ltCh cs ds

/-- Boolean string comparison used to model the sorted key iteration
of Go templates over a map. -/
def strLtB (a b : String) : Bool := ltCh a.toList b.toList

/-- Concatenation of a list of strings. -/
def concatAll : List String → String
  | [] => ""
  | s :: rest => s ++ concatAll rest

/-- Substring containment: `needle` occurs contiguously in `hay`. -/
def sContains (hay needle : String) : Prop :=
  ∃ x y, hay = x ++ (needle ++ y)

/-- Model of Go `strings.Title` restricted to the way this program uses
it: every letter that follows a non-letter (or starts the string) is
mapped to upper case.  The program only ever applies it to a single
lower-case word such as "plan". -/
def stringsTitle (s : String) : String :=
  (s.toList.foldl
    (fun (acc : String × Bool) (c : Char) =>
      if c.isAlpha && !acc.2 then (acc.1.push c.toUpper, true)
      else (acc.1.push c, c.isAlpha))
    ("", false)).1

/-! ## Template values and environments -/

/-- Value a template field can hold in this program: a string, a bool
(the Verbose flag) or a `map[string]string` (the per-project results).
The map is an association list; iteration always goes through
`sortByKey`. -/
inductive TVal
  | str (s : String)
  | boolv (b : Bool)
  | strMap (entries : List (String × String))
deriving DecidableEq

/-- Data passed to a template: field name to value, mirroring the Go
structs whose exported fields the templates access. -/
abbrev TEnv := List (String × TVal)

/-- Printing of a value interpolated by a template, as Go fmt would. -/
def showTVal : TVal → String
  | .str s => s
  | .boolv b => if b then "true" else "false"
  | .strMap entries =>
    "map[" ++ String.intercalate " " (entries.map (fun p => p.1 ++ ":" ++ p.2)) ++ "]"

/-- Truth of a value in a Go template conditional: zero values are
false. -/
def truthy : TVal → Bool
  | .str s => s ≠ ""
  | .boolv b => b
  | .strMap entries => entries ≠ []

/-- Go map assignment `m[k] = v` on the association-list model:
overwrite the entry if the key is present, append otherwise. -/
def mapInsert (m : List (String × String)) (k v : String) : List (String × String) :=
  if m.any (fun p => p.1 == k) then
    m.map (fun p => if p.1 == k then (k, v) else p)
  else m ++ [(k, v)]

/-- Sorted key order in which Go templates iterate over a
`map[string]string`. -/
def sortByKey (m : List (String × String)) : List (String × String) :=
  List.insertionSort (fun a b => ¬ strLtB b.1 a.1) m

/-! ## Template abstract syntax and execution -/

/-- Item inside a conditional block: the only `if` in the fixed
templates (the log section) contains just literal text and a field. -/
inductive FlatItem
  | lit (s : String)
  | field (name : String)

/-- Item inside a `range` body: literal text, the current key, or the
current value. -/
inductive RItem
  | lit (s : String)
  | key
  | val

/-- Node of a template: the constructs used by the fixed templates of
the source file. -/
inductive TmplNode
  | lit (s : String)
  | field (name : String)
  | condBlock (name : String) (body : List FlatItem)
  | lenField (name : String)
  | rangeField (name : String) (body : List RItem)

/-- Template: a sequence of nodes. -/
abbrev Tmpl := List TmplNode

/-- Execution of one flat item against an environment; a missing field
is an execution error, as in Go text/template. -/
def execFlat (env : TEnv) : FlatItem → Except String String
  | .lit s => .ok s
  | .field n =>
    match List.lookup n env with
    | some v => .ok (showTVal v)
    | none => .error ("cannot evaluate field " ++ n)

/-- Execution of the body of a conditional block. -/
def execFlatList (env : TEnv) : List FlatItem → Except String String
  | [] => .ok ""
  | item :: rest =>
    match execFlat env item with
    | .error e => .error e
    | .ok s =>
      match execFlatList env rest with
      | .error e => .error e
      | .ok t => .ok (s ++ t)

/-- Execution of one range-body item for the current key and value. -/
def execRItem (k v : String) : RItem → String
  | .lit s => s
  | .key => k
  | .val => v

/-- Execution of a range body for the current key and value. -/
def execRItems (k v : String) (body : List RItem) : String :=
  concatAll (body.map (execRItem k v))

/-- Execution of one template node. -/
def execNode (env : TEnv) : TmplNode → Except String String
  | .lit s => .ok s
  | .field n =>
    match List.lookup n env with
    | some v => .ok (showTVal v)
    | none => .error ("cannot evaluate field " ++ n)
  | .condBlock n body =>
    match List.lookup n env with
    | some tv => if truthy tv then execFlatList env body else .ok ""
    | none => .error ("cannot evaluate field " ++ n)
  | .lenField n =>
    match List.lookup n env with
    | some (.strMap entries) => .ok (toString entries.length)
    | some (.str s) => .ok (toString s.length)
    | some (.boolv _) => .error "len of untyped bool"
    | none => .error ("cannot evaluate field " ++ n)
  | .rangeField n body =>
    match List.lookup n env with
    | some (.strMap entries) =>
      .ok (concatAll ((sortByKey entries).map (fun p => execRItems p.1 p.2 body)))
    | some _ => .error "range cannot iterate over value"
    | none => .error ("cannot evaluate field " ++ n)

/-- Execution of a template: concatenate the nodes, stopping at the
first error, as `template.Execute` does. -/
def execTemplate (env : TEnv) : Tmpl → Except String String
  | [] => .ok ""
  | n :: rest =>
    match execNode env n with
    | .error e => .error e
    | .ok s =>
      match execTemplate env rest with
      | .error e => .error e
      | .ok t => .ok (s ++ t)

/-- Embedding of `renderTemplate` (source lines 105 to 111): execute the
template and, on failure, return the descriptive fallback string
instead of propagating the error. -/
def renderTemplate (tmpl : Tmpl) (env : TEnv) : String :=
  match execTemplate env tmpl with
  | .ok s => s
  | .error e => "Failed to render template, this is a bug: " ++ e

/-! ## The fixed templates (source lines 113 to 142) -/

/-- Embedding of `logTmpl`. -/
def logTmplNodes : Tmpl :=
  [ .condBlock "Verbose"
      [ .lit "\n<details><summary>Log</summary>\n  <p>\n\n```\n"
      , .field "Log"
      , .lit "```\n</p></details>" ]
  , .lit "\n" ]

/-- Embedding of `singleProjectTmpl`. -/
def singleProjectTmpl : Tmpl :=
  [ TmplNode.rangeField "Results" [RItem.val], TmplNode.lit "\n" ] ++ logTmplNodes

/-- Embedding of `multiProjectTmpl`. -/
def multiProjectTmpl : Tmpl :=
  [ TmplNode.lit "Ran "
  , TmplNode.field "Command"
  , TmplNode.lit " in "
  , TmplNode.lenField "Results"
  , TmplNode.lit " directories:\n"
  , TmplNode.rangeField "Results" [RItem.lit " * `", RItem.key, RItem.lit "`\n"]
  , TmplNode.lit "\n"
  , TmplNode.rangeField "Results"
      [RItem.lit "## ", RItem.key, RItem.lit "/\n", RItem.val, RItem.lit "\n---\n"]
  ] ++ logTmplNodes

/-- Embedding of `planSuccessTmpl`. -/
def planSuccessTmpl : Tmpl :=
  [ TmplNode.lit "```diff\n"
  , TmplNode.field "TerraformOutput"
  , TmplNode.lit "\n```\n\n* To **discard** this plan click [here]("
  , TmplNode.field "LockURL"
  , TmplNode.lit ")." ]

/-- Embedding of `applySuccessTmpl`. -/
def applySuccessTmpl : Tmpl :=
  [ TmplNode.lit "```diff\n", TmplNode.field "Output", TmplNode.lit "\n```" ]

/-- Embedding of `errTmplText` as template nodes. -/
def errTmplNodes : Tmpl :=
  [ TmplNode.lit "**"
  , TmplNode.field "Command"
  , TmplNode.lit " Error**\n```\n"
  , TmplNode.field "Error"
  , TmplNode.lit "\n```\n" ]

/-- Embedding of `errTmpl`. -/
def errTmpl : Tmpl := errTmplNodes

/-- Embedding of `errWithLogTmpl`. -/
def errWithLogTmpl : Tmpl := errTmplNodes ++ logTmplNodes

/-- Embedding of `failureTmplText` as template nodes. -/
def failureTmplNodes : Tmpl :=
  [ TmplNode.lit "**"
  , TmplNode.field "Command"
  , TmplNode.lit " Failed**: "
  , TmplNode.field "Failure"
  , TmplNode.lit "\n" ]

/-- Embedding of `failureTmpl`. -/
def failureTmpl : Tmpl := failureTmplNodes

/-- Embedding of `failureWithLogTmpl`. -/
def failureWithLogTmpl : Tmpl := failureTmplNodes ++ logTmplNodes

/-! ## Data model -/

/-- Modelled from the spec: the command-kind discriminator
(`CommandName`, defined outside the rendered source file), convertible
to a lower-case display name by its `String()` method; the glossary
lists plan, apply and help as the command kinds. -/
inductive CommandName
  | Plan
  | Apply
  | Help
deriving DecidableEq

/-- Modelled from the spec: the lower-case display name returned by the
`String()` method of `CommandName`. -/
def CommandName.cmdString : CommandName → String
  | .Plan => "plan"
  | .Apply => "apply"
  | .Help => "help"

/-- Embedding of the `MarkdownRenderer` struct (source lines 24 to 26). -/
structure MarkdownRenderer where
  LockURLBuilder : String → String

/-- Embedding of `CommonData` (source lines 29 to 33). -/
structure CommonData where
  Command : String
  Verbose : Bool
  Log : String
deriving DecidableEq

/-- Modelled from the spec: the `PlanSuccess` payload of a project
outcome, defined outside the rendered source file; the fields are the
ones the source file and its templates access: `TerraformOutput`
(the diff text), `LockKey` (the opaque lock token) and `LockURL`
(filled in by the renderer from the lock-URL builder). -/
structure PlanSuccess where
  TerraformOutput : String
  LockKey : String
  LockURL : String
deriving DecidableEq

/-- Modelled from the spec: one per-project outcome (`ProjectResult`,
defined outside the rendered source file), keyed by its path; the
fields are the ones the source file accesses, with the Go `error`
field and the `*PlanSuccess` pointer modelled as options. -/
structure ProjectResult where
  Path : String
  Error : Option String
  Failure : String
  PlanSuccess : Option PlanSuccess
  ApplySuccess : String
deriving DecidableEq

/-- Modelled from the spec: the top-level command outcome
(`CommandResponse`, defined outside the rendered source file); the
fields are the ones the source file accesses. -/
structure CommandResponse where
  Error : Option String
  Failure : String
  ProjectResults : List ProjectResult
deriving DecidableEq

/-! ## Environments passed to the templates -/

/-- Data for `errWithLogTmpl`: the `ErrData` struct with its embedded
`CommonData` fields promoted. -/
def envErrData (errMsg : String) (c : CommonData) : TEnv :=
  [ ("Error", TVal.str errMsg)
  , ("Command", TVal.str c.Command)
  , ("Verbose", TVal.boolv c.Verbose)
  , ("Log", TVal.str c.Log) ]

/-- Data for `failureWithLogTmpl`: the `FailureData` struct with its
embedded `CommonData` fields promoted. -/
def envFailureData (failureMsg : String) (c : CommonData) : TEnv :=
  [ ("Failure", TVal.str failureMsg)
  , ("Command", TVal.str c.Command)
  , ("Verbose", TVal.boolv c.Verbose)
  , ("Log", TVal.str c.Log) ]

/-- Data for `errTmpl`: the anonymous struct of source lines 71 to 77. -/
def envCmdErr (command errMsg : String) : TEnv :=
  [ ("Command", TVal.str command), ("Error", TVal.str errMsg) ]

/-- Data for `failureTmpl`: the anonymous struct of source lines 79 to 85. -/
def envCmdFailure (command failureMsg : String) : TEnv :=
  [ ("Command", TVal.str command), ("Failure", TVal.str failureMsg) ]

/-- Data for `planSuccessTmpl`: the dereferenced `PlanSuccess` struct. -/
def envPlan (ps : PlanSuccess) : TEnv :=
  [ ("TerraformOutput", TVal.str ps.TerraformOutput)
  , ("LockKey", TVal.str ps.LockKey)
  , ("LockURL", TVal.str ps.LockURL) ]

/-- Data for `applySuccessTmpl`: the anonymous struct of source line 90. -/
def envApply (output : String) : TEnv :=
  [ ("Output", TVal.str output) ]

/-- Data for the single and multi project templates: the `ResultData`
struct with its embedded `CommonData` fields promoted. -/
def envResultData (results : List (String × String)) (c : CommonData) : TEnv :=
  [ ("Results", TVal.strMap results)
  , ("Command", TVal.str c.Command)
  , ("Verbose", TVal.boolv c.Verbose)
  , ("Log", TVal.str c.Log) ]

/-! ## The renderer (source lines 55 to 103) -/

/-- Body of the loop of `renderProjectResults` (source lines 69 to 94)
for one `ProjectResult`: the rendered fragment together with the
post-state of the result, since the `PlanSuccess` branch writes the
lock URL through the pointer before rendering. -/
def projectFragment (m : MarkdownRenderer) (command : String) (result : ProjectResult) :
    String × ProjectResult :=
  match result.Error with
  | some errMsg => (renderTemplate errTmpl (envCmdErr command errMsg), result)
  | none =>
    if result.Failure ≠ "" then
      (renderTemplate failureTmpl (envCmdFailure command result.Failure), result)
    else
      match result.PlanSuccess with
      | some ps =>
        let ps2 : PlanSuccess := { ps with LockURL := m.LockURLBuilder ps.LockKey }
        (renderTemplate planSuccessTmpl (envPlan ps2), { result with PlanSuccess := some ps2 })
      | none =>
        if result.ApplySuccess ≠ "" then
          (renderTemplate applySuccessTmpl (envApply result.ApplySuccess), result)
        else
          ("Found no template. This is a bug!", result)

/-- The loop of `renderProjectResults`: build the results map in input
order (with Go map overwrite semantics) and accumulate the post-state
of each result. -/
def buildLoop (m : MarkdownRenderer) (command : String)
    (acc : List (String × String)) (upd : List ProjectResult) :
    List ProjectResult → List (String × String) × List ProjectResult
  | [] => (acc, upd)
  | result :: rest =>
    let fr := projectFragment m command result
    buildLoop m command (mapInsert acc result.Path fr.1) (upd ++ [fr.2]) rest

/-- Embedding of `renderProjectResults` (source lines 67 to 103),
returning the rendered string and the post-state of the result list. -/
def renderProjectResults (m : MarkdownRenderer) (pathResults : List ProjectResult)
    (common : CommonData) : String × List ProjectResult :=
  let built := buildLoop m common.Command [] [] pathResults
  let tmpl := if built.1.length = 1 then singleProjectTmpl else multiProjectTmpl
  (renderTemplate tmpl (envResultData built.1 common), built.2)

/-- Embedding of `Render` (source lines 55 to 65) with the heap effect
made explicit: the rendered string together with the post-state of the
response (the only mutation the source performs is the lock URL write
on line 87). -/
def RenderFull (m : MarkdownRenderer) (res : CommandResponse) (cmdName : CommandName)
    (log : String) (verbose : Bool) : String × CommandResponse :=
  let commandStr := stringsTitle cmdName.cmdString
  let common : CommonData := ⟨commandStr, verbose, log⟩
  match res.Error with
  | some errMsg => (renderTemplate errWithLogTmpl (envErrData errMsg common), res)
  | none =>
    if res.Failure ≠ "" then
      (renderTemplate failureWithLogTmpl (envFailureData res.Failure common), res)
    else
      let pr := renderProjectResults m res.ProjectResults common
      (pr.1, { res with ProjectResults := pr.2 })

/-- Embedding of `Render` as the caller sees it: the returned markdown
string. -/
def Render (m : MarkdownRenderer) (res : CommandResponse) (cmdName : CommandName)
    (log : String) (verbose : Bool) : String :=
  (RenderFull m res cmdName log verbose).1


/-- Spec-side description of the optional log section. -/
def logSection (v : Bool) (lg : String) : String :=
  (if v then "\n<details><summary>Log</summary>\n  <p>\n\n```\n" ++ lg ++ "```\n</p></details>" else "") ++ "\n"

/-- Spec-side description of the command label. -/
def titleLabel (cmd : CommandName) : String := stringsTitle cmd.cmdString

/-- Concrete renderer used by witnesses: the lock-URL builder of the
spec scenarios. -/
def mRen : MarkdownRenderer := ⟨fun k => "http://x/" ++ k⟩

/-- Concrete renderer whose builder is a separate definition with the
same extension, used by the determinism witness. -/
def mRenDup : MarkdownRenderer := ⟨fun k => "http://x/" ++ k⟩

/-- Concrete renderer with a different builder, used by the
builder-independence witness. -/
def mRen2 : MarkdownRenderer := ⟨fun k => "https://y/" ++ k⟩

/-- Concrete plan result used by witnesses. -/
def rPlan1 : ProjectResult := ⟨"a", none, "", some ⟨"+ resource", "L1", ""⟩, ""⟩

/-- Concrete errored result used by witnesses. -/
def rErr1 : ProjectResult := ⟨"e", some "boom", "", some ⟨"+ resource", "L1", ""⟩, ""⟩

/-- Concrete two-project response used by witnesses. -/
def resM5 : CommandResponse :=
  ⟨none, "", [⟨"b", none, "", some ⟨"- resource", "L2", ""⟩, ""⟩,
              ⟨"a", none, "", some ⟨"+ resource", "L1", ""⟩, ""⟩]⟩

/-- Concrete response holding an empty-variant result next to an apply
result, used by the fallback witness. -/
def resM7 : CommandResponse :=
  ⟨none, "", [⟨"p1", none, "", none, ""⟩, ⟨"p2", none, "", none, "ok"⟩]⟩

theorem exec_errWithLog (e c : String) (v : Bool) (lg : String) :
    execTemplate (envErrData e ⟨c, v, lg⟩) errWithLogTmpl =
      .ok ("**" ++ c ++ " Error**\n```\n" ++ e ++ "\n```\n" ++ logSection v lg) := by
  cases v <;>
    simp [execTemplate, execNode, execFlatList, execFlat, envErrData, errWithLogTmpl,
      errTmplNodes, logTmplNodes, List.lookup, showTVal, truthy, logSection,
      String.append_assoc, String.append_empty, String.empty_append]

theorem exec_failureWithLog (f c : String) (v : Bool) (lg : String) :
    execTemplate (envFailureData f ⟨c, v, lg⟩) failureWithLogTmpl =
      .ok ("**" ++ c ++ " Failed**: " ++ f ++ "\n" ++ logSection v lg) := by
  cases v <;>
    simp [execTemplate, execNode, execFlatList, execFlat, envFailureData, failureWithLogTmpl,
      failureTmplNodes, logTmplNodes, List.lookup, showTVal, truthy, logSection,
      String.append_assoc, String.append_empty, String.empty_append]

theorem exec_err (c e : String) :
    execTemplate (envCmdErr c e) errTmpl = .ok ("**" ++ c ++ " Error**\n```\n" ++ e ++ "\n```\n") := by
  simp [execTemplate, execNode, envCmdErr, errTmpl, errTmplNodes, List.lookup, showTVal,
    String.append_assoc, String.append_empty, String.empty_append]

theorem exec_failure (c f : String) :
    execTemplate (envCmdFailure c f) failureTmpl = .ok ("**" ++ c ++ " Failed**: " ++ f ++ "\n") := by
  simp [execTemplate, execNode, envCmdFailure, failureTmpl, failureTmplNodes, List.lookup,
    showTVal, String.append_assoc, String.append_empty, String.empty_append]

theorem exec_plan (ps : PlanSuccess) :
    execTemplate (envPlan ps) planSuccessTmpl =
      .ok ("```diff\n" ++ ps.TerraformOutput ++
        "\n```\n\n* To **discard** this plan click [here](" ++ ps.LockURL ++ ").") := by
  simp [execTemplate, execNode, envPlan, planSuccessTmpl, List.lookup, showTVal,
    String.append_assoc, String.append_empty, String.empty_append]

theorem exec_apply (out : String) :
    execTemplate (envApply out) applySuccessTmpl = .ok ("```diff\n" ++ out ++ "\n```") := by
  simp [execTemplate, execNode, envApply, applySuccessTmpl, List.lookup, showTVal,
    String.append_assoc, String.append_empty, String.empty_append]

theorem exec_single (rs : List (String × String)) (c : String) (v : Bool) (lg : String) :
    execTemplate (envResultData rs ⟨c, v, lg⟩) singleProjectTmpl =
      .ok (concatAll ((sortByKey rs).map (fun p => p.2)) ++ "\n" ++ logSection v lg) := by
  cases v <;>
    simp [execTemplate, execNode, execFlatList, execFlat, execRItems, execRItem, concatAll,
      envResultData, singleProjectTmpl, logTmplNodes, List.lookup, showTVal, truthy, logSection,
      String.append_assoc, String.append_empty, String.empty_append]

theorem exec_multi (rs : List (String × String)) (c : String) (v : Bool) (lg : String) :
    execTemplate (envResultData rs ⟨c, v, lg⟩) multiProjectTmpl =
      .ok ("Ran " ++ c ++ " in " ++ toString rs.length ++ " directories:\n" ++
        concatAll ((sortByKey rs).map (fun p => " * `" ++ p.1 ++ "`\n")) ++ "\n" ++
        concatAll ((sortByKey rs).map (fun p => "## " ++ p.1 ++ "/\n" ++ p.2 ++ "\n---\n")) ++
        logSection v lg) := by
  cases v <;>
    simp [execTemplate, execNode, execFlatList, execFlat, execRItems, execRItem, concatAll,
      envResultData, multiProjectTmpl, logTmplNodes, List.lookup, showTVal, truthy, logSection,
      String.append_assoc, String.append_empty, String.empty_append]

theorem projectFragment_err (m : MarkdownRenderer) (c : String) (r : ProjectResult)
    (e : String) (hE : r.Error = some e) :
    projectFragment m c r = ("**" ++ c ++ " Error**\n```\n" ++ e ++ "\n```\n", r) := by
  simp [projectFragment, hE, renderTemplate, exec_err]

theorem projectFragment_failure (m : MarkdownRenderer) (c : String) (r : ProjectResult)
    (hE : r.Error = none) (hF : r.Failure ≠ "") :
    projectFragment m c r = ("**" ++ c ++ " Failed**: " ++ r.Failure ++ "\n", r) := by
  simp [projectFragment, hE, hF, renderTemplate, exec_failure]

theorem projectFragment_plan (m : MarkdownRenderer) (c : String) (r : ProjectResult)
    (ps : PlanSuccess) (hE : r.Error = none) (hF : r.Failure = "") (hP : r.PlanSuccess = some ps) :
    projectFragment m c r =
      ("```diff\n" ++ ps.TerraformOutput ++
        "\n```\n\n* To **discard** this plan click [here](" ++ m.LockURLBuilder ps.LockKey ++ ").",
       { r with PlanSuccess := some { ps with LockURL := m.LockURLBuilder ps.LockKey } }) := by
  simp [projectFragment, hE, hF, hP, renderTemplate, exec_plan]

theorem projectFragment_apply (m : MarkdownRenderer) (c : String) (r : ProjectResult)
    (hE : r.Error = none) (hF : r.Failure = "") (hP : r.PlanSuccess = none)
    (hA : r.ApplySuccess ≠ "") :
    projectFragment m c r = ("```diff\n" ++ r.ApplySuccess ++ "\n```", r) := by
  simp [projectFragment, hE, hF, hP, hA, renderTemplate, exec_apply]

theorem projectFragment_fallback (m : MarkdownRenderer) (c : String) (r : ProjectResult)
    (hE : r.Error = none) (hF : r.Failure = "") (hP : r.PlanSuccess = none)
    (hA : r.ApplySuccess = "") :
    projectFragment m c r = ("Found no template. This is a bug!", r) := by
  simp [projectFragment, hE, hF, hP, hA]

theorem buildLoop_snd (m : MarkdownRenderer) (c : String) :
    ∀ (l : List ProjectResult) (acc : List (String × String)) (upd : List ProjectResult),
      (buildLoop m c acc upd l).2 = upd ++ l.map (fun r => (projectFragment m c r).2)
  | [], acc, upd => by simp [buildLoop]
  | r :: rest, acc, upd => by
    simp [buildLoop, buildLoop_snd m c rest]

theorem mapInsert_notmem (acc : List (String × String)) (k v : String)
    (h : ∀ p ∈ acc, p.1 ≠ k) : mapInsert acc k v = acc ++ [(k, v)] := by
  have hany : acc.any (fun p => p.1 == k) = false := by
    simp only [List.any_eq_false]
    intro p hp
    simpa using h p hp
  simp [mapInsert, hany]

theorem buildLoop_fst (m : MarkdownRenderer) (c : String) :
    ∀ (l : List ProjectResult) (acc : List (String × String)) (upd : List ProjectResult),
      (l.map ProjectResult.Path).Nodup →
      (∀ r ∈ l, ∀ p ∈ acc, p.1 ≠ r.Path) →
      (buildLoop m c acc upd l).1 = acc ++ l.map (fun r => (r.Path, (projectFragment m c r).1))
  | [], acc, upd, _, _ => by simp [buildLoop]
  | r :: rest, acc, upd, hnd, hdisj => by
    have hnd' : (rest.map ProjectResult.Path).Nodup := by
      simpa using hnd.of_cons
    have hnotin : r.Path ∉ rest.map ProjectResult.Path := by
      have := hnd
      simp only [List.map_cons, List.nodup_cons] at this
      exact this.1
    have hins : mapInsert acc r.Path (projectFragment m c r).1 =
        acc ++ [(r.Path, (projectFragment m c r).1)] := by
      apply mapInsert_notmem
      intro p hp
      exact hdisj r (by simp) p hp
    have hdisj' : ∀ r2 ∈ rest, ∀ p ∈ acc ++ [(r.Path, (projectFragment m c r).1)], p.1 ≠ r2.Path := by
      intro r2 hr2 p hp
      rcases List.mem_append.mp hp with hpa | hpb
      · exact hdisj r2 (by simp [hr2]) p hpa
      · have : p = (r.Path, (projectFragment m c r).1) := by simpa using hpb
        subst this
        intro hcontra
        apply hnotin
        simp only [] at hcontra
        rw [show r.Path = r2.Path from hcontra]
        exact List.mem_map_of_mem ProjectResult.Path hr2
    calc (buildLoop m c acc upd (r :: rest)).1
        = (buildLoop m c (acc ++ [(r.Path, (projectFragment m c r).1)])
            (upd ++ [(projectFragment m c r).2]) rest).1 := by
          simp [buildLoop, hins]
      _ = acc ++ (r :: rest).map (fun r => (r.Path, (projectFragment m c r).1)) := by
          rw [buildLoop_fst m c rest _ _ hnd' hdisj']
          simp

theorem sContains_left {a : String} {n : String} (h : sContains a n) (b : String) :
    sContains (a ++ b) n := by
  obtain ⟨x, y, rfl⟩ := h
  exact ⟨x, y ++ b, by simp [String.append_assoc]⟩

theorem sContains_right {b : String} {n : String} (h : sContains b n) (a : String) :
    sContains (a ++ b) n := by
  obtain ⟨x, y, rfl⟩ := h
  exact ⟨a ++ x, y, by simp [String.append_assoc]⟩

theorem sContains_concatAll {x : String} :
    ∀ {l : List String}, x ∈ l → sContains (concatAll l) x
  | [], h => by simp at h
  | y :: rest, h => by
    rcases List.mem_cons.mp h with h1 | h2
    · subst h1
      exact ⟨"", concatAll rest, by simp [concatAll, String.empty_append]⟩
    · exact sContains_right (sContains_concatAll h2) y

theorem Render_err (m : MarkdownRenderer) (res : CommandResponse) (cmd : CommandName)
    (lg : String) (v : Bool) (e : String) (hE : res.Error = some e) :
    Render m res cmd lg v =
      "**" ++ titleLabel cmd ++ " Error**\n```\n" ++ e ++ "\n```\n" ++ logSection v lg := by
  simp [Render, RenderFull, hE, renderTemplate, exec_errWithLog, titleLabel,
    String.append_assoc]

theorem Render_failure (m : MarkdownRenderer) (res : CommandResponse) (cmd : CommandName)
    (lg : String) (v : Bool) (hE : res.Error = none) (hF : res.Failure ≠ "") :
    Render m res cmd lg v =
      "**" ++ titleLabel cmd ++ " Failed**: " ++ res.Failure ++ "\n" ++ logSection v lg := by
  simp [Render, RenderFull, hE, hF, renderTemplate, exec_failureWithLog, titleLabel,
    String.append_assoc]

theorem Render_single (m : MarkdownRenderer) (res : CommandResponse) (cmd : CommandName)
    (lg : String) (v : Bool) (r : ProjectResult) (hE : res.Error = none)
    (hF : res.Failure = "") (hP : res.ProjectResults = [r]) :
    Render m res cmd lg v =
      (projectFragment m (titleLabel cmd) r).1 ++ "\n" ++ logSection v lg := by
  simp [Render, RenderFull, hE, hF, hP, renderProjectResults, buildLoop, mapInsert,
    renderTemplate, exec_single, sortByKey, List.insertionSort, concatAll, titleLabel,
    String.append_assoc, String.append_empty]

theorem Render_multi (m : MarkdownRenderer) (res : CommandResponse) (cmd : CommandName)
    (lg : String) (v : Bool) (hE : res.Error = none) (hF : res.Failure = "")
    (hnd : (res.ProjectResults.map ProjectResult.Path).Nodup)
    (hlen : res.ProjectResults.length ≠ 1) :
    Render m res cmd lg v =
      "Ran " ++ titleLabel cmd ++ " in " ++ toString res.ProjectResults.length ++
      " directories:\n" ++
      concatAll ((sortByKey (res.ProjectResults.map
        (fun r => (r.Path, (projectFragment m (titleLabel cmd) r).1)))).map
          (fun p => " * `" ++ p.1 ++ "`\n")) ++ "\n" ++
      concatAll ((sortByKey (res.ProjectResults.map
        (fun r => (r.Path, (projectFragment m (titleLabel cmd) r).1)))).map
          (fun p => "## " ++ p.1 ++ "/\n" ++ p.2 ++ "\n---\n")) ++
      logSection v lg := by
  have hdisj : ∀ r ∈ res.ProjectResults, ∀ p ∈ ([] : List (String × String)), p.1 ≠ r.Path := by
    intro r hr p hp
    simp at hp
  have hfst := buildLoop_fst m (stringsTitle cmd.cmdString) res.ProjectResults [] [] hnd hdisj
  simp only [List.nil_append] at hfst
  simp [Render, RenderFull, hE, hF, renderProjectResults, hfst, List.length_map, hlen,
    renderTemplate, exec_multi, titleLabel, String.append_assoc]

theorem sContains_trans {a mid n : String} (h1 : sContains a mid) (h2 : sContains mid n) :
    sContains a n := by
  obtain ⟨x, y, rfl⟩ := h1
  obtain ⟨u, w, rfl⟩ := h2
  exact ⟨x ++ u, w ++ y, by simp [String.append_assoc]⟩


/-- Claim C1: for every input, rendering returns a markdown string and
never propagates an error: executing a template either succeeds, and
renderTemplate returns the produced text, or fails, and renderTemplate
returns the descriptive fallback string starting with
"Failed to render template, this is a bug: " instead of an error. -/
theorem claim1_renderTemplate_total_fallback (tmpl : Tmpl) (env : TEnv) :
    (∃ s, execTemplate env tmpl = .ok s ∧ renderTemplate tmpl env = s) ∨
    (∃ e, execTemplate env tmpl = .error e ∧
      renderTemplate tmpl env = "Failed to render template, this is a bug: " ++ e) := by
  cases h : execTemplate env tmpl with
  | ok s => exact Or.inl ⟨s, rfl, by simp [renderTemplate, h]⟩
  | error e => exact Or.inr ⟨e, rfl, by simp [renderTemplate, h]⟩

/-- Claim C2: for every commandKind, log text and verbose flag, Render
applied to a CommandResponse whose Error field is populated with
message msg returns text containing the bold command-label Error
banner and the literal msg, and the whole output is the error template
followed by the collapsible details log block exactly when verbose is
true (the log section is empty when verbose is false). -/
theorem claim2_error_response (m : MarkdownRenderer) (cmd : CommandName) (lg : String)
    (v : Bool) (msg : String) (res : CommandResponse) (hE : res.Error = some msg) :
    sContains (Render m res cmd lg v) ("**" ++ titleLabel cmd ++ " Error**") ∧
    sContains (Render m res cmd lg v) msg ∧
    Render m res cmd lg v =
      "**" ++ titleLabel cmd ++ " Error**\n```\n" ++ msg ++ "\n```\n" ++ logSection v lg := by
  have h := Render_err m res cmd lg v msg hE
  refine ⟨⟨"", "\n```\n" ++ msg ++ "\n```\n" ++ logSection v lg, ?_⟩,
          ⟨"**" ++ titleLabel cmd ++ " Error**\n```\n", "\n```\n" ++ logSection v lg, ?_⟩, h⟩
  · rw [h, show (" Error**\n```\n" : String) = " Error**" ++ "\n```\n" from rfl]
    simp only [String.append_assoc, String.empty_append]
  · rw [h]
    simp only [String.append_assoc]

/-- Witness for C2 at a concrete errored response. -/
theorem claim2_error_response_witness :
    sContains (Render mRen ⟨some "boom", "", []⟩ CommandName.Plan "lg" true) "**Plan Error**" ∧
    sContains (Render mRen ⟨some "boom", "", []⟩ CommandName.Plan "lg" true) "boom" ∧
    Render mRen ⟨some "boom", "", []⟩ CommandName.Plan "lg" true =
      "**" ++ "Plan" ++ " Error**\n```\n" ++ "boom" ++ "\n```\n" ++ logSection true "lg" :=
  claim2_error_response mRen CommandName.Plan "lg" true "boom" ⟨some "boom", "", []⟩ rfl

/-- Claim C3: for every commandKind, Render applied to a
CommandResponse with no Error but a non-empty Failure string returns
the single failed line followed by the optional log block (present
exactly when verbose is true) and nothing else. -/
theorem claim3_failure_response (m : MarkdownRenderer) (cmd : CommandName) (lg : String)
    (v : Bool) (res : CommandResponse) (hE : res.Error = none) (hF : res.Failure ≠ "") :
    Render m res cmd lg v =
      "**" ++ titleLabel cmd ++ " Failed**: " ++ res.Failure ++ "\n" ++ logSection v lg :=
  Render_failure m res cmd lg v hE hF

/-- Witness for C3 at a concrete failed response. -/
theorem claim3_failure_response_witness :
    Render mRen ⟨none, "failmsg", []⟩ CommandName.Apply "lg" false =
      "**" ++ "Apply" ++ " Failed**: " ++ "failmsg" ++ "\n" ++ logSection false "lg" :=
  claim3_failure_response mRen CommandName.Apply "lg" false ⟨none, "failmsg", []⟩ rfl
    (by decide)

/-- Claim C4: for every CommandResponse containing exactly one
ProjectResult and no top-level error or failure, the output of Render
is exactly that project fragment followed by the optional log block:
no banner line and no per-path header is emitted. -/
theorem claim4_single_project (m : MarkdownRenderer) (cmd : CommandName) (lg : String)
    (v : Bool) (r : ProjectResult) (res : CommandResponse) (hE : res.Error = none)
    (hF : res.Failure = "") (hP : res.ProjectResults = [r]) :
    Render m res cmd lg v =
      (projectFragment m (titleLabel cmd) r).1 ++ "\n" ++ logSection v lg :=
  Render_single m res cmd lg v r hE hF hP

/-- Witness for C4 at the concrete apply scenario of the spec. -/
theorem claim4_single_project_witness :
    Render mRen ⟨none, "", [⟨"proj1", none, "", none, "Apply complete!"⟩]⟩
        CommandName.Apply "" false =
      (projectFragment mRen (titleLabel CommandName.Apply)
        ⟨"proj1", none, "", none, "Apply complete!"⟩).1 ++ "\n" ++ logSection false "" :=
  claim4_single_project mRen CommandName.Apply "" false
    ⟨"proj1", none, "", none, "Apply complete!"⟩ ⟨none, "", [⟨"proj1", none, "", none, "Apply complete!"⟩]⟩
    rfl rfl rfl

/-- Claim C5: for every CommandResponse containing more than one
ProjectResult with pairwise distinct paths and no top-level error or
failure, the output of Render is the banner line naming the command
and the count N of directories, one bulleted entry per path, and one
per-path header section per project (the sorted path list being a
permutation of the input paths, of the same length N), each section
holding that project fragment and a horizontal-rule separator,
followed by the optional log block. -/
theorem claim5_multi_project (m : MarkdownRenderer) (cmd : CommandName) (lg : String)
    (v : Bool) (res : CommandResponse) (hE : res.Error = none) (hF : res.Failure = "")
    (hnd : (res.ProjectResults.map ProjectResult.Path).Nodup)
    (hN : 1 < res.ProjectResults.length) :
    let pairs := res.ProjectResults.map
      (fun r => (r.Path, (projectFragment m (titleLabel cmd) r).1))
    List.Perm (sortByKey pairs) pairs ∧
    (sortByKey pairs).length = res.ProjectResults.length ∧
    Render m res cmd lg v =
      "Ran " ++ titleLabel cmd ++ " in " ++ toString res.ProjectResults.length ++
      " directories:\n" ++
      concatAll ((sortByKey pairs).map (fun p => " * `" ++ p.1 ++ "`\n")) ++ "\n" ++
      concatAll ((sortByKey pairs).map (fun p => "## " ++ p.1 ++ "/\n" ++ p.2 ++ "\n---\n")) ++
      logSection v lg := by
  intro pairs
  have hperm : List.Perm (sortByKey pairs) pairs := by
    simpa [sortByKey] using
      List.perm_insertionSort (fun (a b : String × String) => ¬ strLtB b.1 a.1) pairs
  refine ⟨hperm, ?_, Render_multi m res cmd lg v hE hF hnd (by omega)⟩
  rw [hperm.length_eq]
  simp [pairs]


/-- Witness for C5 at the concrete two-plan scenario of the spec. -/
theorem claim5_multi_project_witness :
    let pairs := resM5.ProjectResults.map
      (fun r => (r.Path, (projectFragment mRen (titleLabel CommandName.Plan) r).1))
    List.Perm (sortByKey pairs) pairs ∧
    (sortByKey pairs).length = resM5.ProjectResults.length ∧
    Render mRen resM5 CommandName.Plan "" false =
      "Ran " ++ titleLabel CommandName.Plan ++ " in " ++ toString resM5.ProjectResults.length ++
      " directories:\n" ++
      concatAll ((sortByKey pairs).map (fun p => " * `" ++ p.1 ++ "`\n")) ++ "\n" ++
      concatAll ((sortByKey pairs).map (fun p => "## " ++ p.1 ++ "/\n" ++ p.2 ++ "\n---\n")) ++
      logSection false "" :=
  claim5_multi_project mRen CommandName.Plan "" false resM5 rfl rfl (by decide) (by decide)

/-- Claim C6: for every ProjectResult whose PlanSuccess variant is
populated with lock key k (and no error or failure), the fragment is
the diff block followed by the discard link whose target is the
lock-URL builder applied to k, applied exactly once; and for every
result rendered through the Error, Failure, ApplySuccess or fallback
branch the fragment does not depend on the builder at all (the builder
is never invoked there). -/
theorem claim6_lock_url_builder (m : MarkdownRenderer) (label : String) (r : ProjectResult)
    (ps : PlanSuccess) :
    (r.Error = none → r.Failure = "" → r.PlanSuccess = some ps →
      projectFragment m label r =
        ("```diff\n" ++ ps.TerraformOutput ++
          "\n```\n\n* To **discard** this plan click [here](" ++
          m.LockURLBuilder ps.LockKey ++ ").",
         { r with PlanSuccess := some { ps with LockURL := m.LockURLBuilder ps.LockKey } })) ∧
    (∀ m2 : MarkdownRenderer,
      (r.Error ≠ none ∨ r.Failure ≠ "" ∨ r.PlanSuccess = none) →
      projectFragment m label r = projectFragment m2 label r) := by
  constructor
  · intro hE hF hP
    exact projectFragment_plan m label r ps hE hF hP
  · intro m2 hvar
    cases hEr : r.Error with
    | some e =>
      rw [projectFragment_err m label r e hEr, projectFragment_err m2 label r e hEr]
    | none =>
      by_cases hFa : r.Failure = ""
      · rcases hvar with h1 | h2 | h3
        · exact absurd hEr h1
        · exact absurd hFa h2
        · by_cases hAp : r.ApplySuccess = ""
          · rw [projectFragment_fallback m label r hEr hFa h3 hAp,
              projectFragment_fallback m2 label r hEr hFa h3 hAp]
          · rw [projectFragment_apply m label r hEr hFa h3 hAp,
              projectFragment_apply m2 label r hEr hFa h3 hAp]
      · rw [projectFragment_failure m label r hEr hFa,
          projectFragment_failure m2 label r hEr hFa]


/-- Witness for C6 at a concrete plan result and a concrete errored result. -/
theorem claim6_lock_url_builder_witness :
    projectFragment mRen "Plan" rPlan1 =
      ("```diff\n" ++ "+ resource" ++ "\n```\n\n* To **discard** this plan click [here](" ++
        mRen.LockURLBuilder "L1" ++ ").",
       { rPlan1 with PlanSuccess := some ⟨"+ resource", "L1", mRen.LockURLBuilder "L1"⟩ }) ∧
    projectFragment mRen "Plan" rErr1 = projectFragment mRen2 "Plan" rErr1 :=
  ⟨(claim6_lock_url_builder mRen "Plan" rPlan1 ⟨"+ resource", "L1", ""⟩).1 rfl rfl rfl,
   (claim6_lock_url_builder mRen "Plan" rErr1 ⟨"+ resource", "L1", ""⟩).2 mRen2
     (Or.inl (by decide))⟩

/-- Claim C7: for every ProjectResult in which none of the four
variants is populated, its fragment is the literal fallback text
"Found no template. This is a bug!", and that text occurs in the
output of Render, so the project is not silently dropped and the whole
document still renders. -/
theorem claim7_no_template_fallback (m : MarkdownRenderer) (cmd : CommandName) (lg : String)
    (v : Bool) (res : CommandResponse) (r : ProjectResult)
    (hmem : r ∈ res.ProjectResults) (hE : res.Error = none) (hF : res.Failure = "")
    (hnd : (res.ProjectResults.map ProjectResult.Path).Nodup)
    (h1 : r.Error = none) (h2 : r.Failure = "") (h3 : r.PlanSuccess = none)
    (h4 : r.ApplySuccess = "") :
    (projectFragment m (titleLabel cmd) r).1 = "Found no template. This is a bug!" ∧
    sContains (Render m res cmd lg v) "Found no template. This is a bug!" := by
  have hfrag := projectFragment_fallback m (titleLabel cmd) r h1 h2 h3 h4
  have hfrag1 : (projectFragment m (titleLabel cmd) r).1 = "Found no template. This is a bug!" := by
    rw [hfrag]
  refine ⟨hfrag1, ?_⟩
  by_cases hlen : res.ProjectResults.length = 1
  · obtain ⟨r0, hP⟩ := List.length_eq_one.mp hlen
    have hr0 : r = r0 := by
      rw [hP] at hmem
      simpa using hmem
    subst hr0
    rw [Render_single m res cmd lg v r hE hF hP, hfrag1]
    exact ⟨"", "\n" ++ logSection v lg, by simp only [String.append_assoc, String.empty_append]⟩
  · have hout := Render_multi m res cmd lg v hE hF hnd hlen
    have hmem2 : (r.Path, (projectFragment m (titleLabel cmd) r).1) ∈
        res.ProjectResults.map (fun r => (r.Path, (projectFragment m (titleLabel cmd) r).1)) :=
      List.mem_map_of_mem _ hmem
    have hmem3 : (r.Path, (projectFragment m (titleLabel cmd) r).1) ∈
        sortByKey (res.ProjectResults.map
          (fun r => (r.Path, (projectFragment m (titleLabel cmd) r).1))) := by
      simpa [sortByKey, List.mem_insertionSort] using hmem2
    have hsec : sContains
        (concatAll ((sortByKey (res.ProjectResults.map
          (fun r => (r.Path, (projectFragment m (titleLabel cmd) r).1)))).map
            (fun p => "## " ++ p.1 ++ "/\n" ++ p.2 ++ "\n---\n")))
        ("## " ++ r.Path ++ "/\n" ++ (projectFragment m (titleLabel cmd) r).1 ++ "\n---\n") :=
      sContains_concatAll
        (List.mem_map_of_mem (fun p => "## " ++ p.1 ++ "/\n" ++ p.2 ++ "\n---\n") hmem3)
    have hfragIn : sContains
        ("## " ++ r.Path ++ "/\n" ++ (projectFragment m (titleLabel cmd) r).1 ++ "\n---\n")
        "Found no template. This is a bug!" := by
      rw [hfrag1]
      exact ⟨"## " ++ r.Path ++ "/\n", "\n---\n",
        by simp only [String.append_assoc]⟩
    rw [hout]
    exact sContains_left (sContains_right (sContains_trans hsec hfragIn) _) _


/-- Witness for C7 at a concrete response holding an empty-variant result. -/
theorem claim7_no_template_fallback_witness :
    (projectFragment mRen (titleLabel CommandName.Plan) ⟨"p1", none, "", none, ""⟩).1 =
      "Found no template. This is a bug!" ∧
    sContains (Render mRen resM7 CommandName.Plan "" false)
      "Found no template. This is a bug!" :=
  claim7_no_template_fallback mRen CommandName.Plan "" false resM7 ⟨"p1", none, "", none, ""⟩
    (by decide) rfl rfl (by decide) rfl rfl rfl rfl

/-- Claim C8: Render is deterministic: it is a pure function of its
inputs, and two renderers whose lock-URL builders agree pointwise
produce identical output on every input. -/
theorem claim8_deterministic (m1 m2 : MarkdownRenderer) (res : CommandResponse)
    (cmd : CommandName) (lg : String) (v : Bool)
    (h : ∀ k, m1.LockURLBuilder k = m2.LockURLBuilder k) :
    Render m1 res cmd lg v = Render m2 res cmd lg v := by
  have hm : m1 = m2 := by
    cases m1
    cases m2
    congr 1
    funext k
    exact h k
  rw [hm]


/-- Witness for C8 on two renderers with extensionally equal builders. -/
theorem claim8_deterministic_witness :
    Render mRen resM5 CommandName.Plan "" false = Render mRenDup resM5 CommandName.Plan "" false :=
  claim8_deterministic mRen mRenDup resM5 CommandName.Plan "" false (fun _ => rfl)

theorem forallTwo_map {α β : Type} (P : α → β → Prop) (f : α → β)
    (h : ∀ a, P a (f a)) : ∀ l : List α, List.Forall₂ P l (l.map f)
  | [] => List.Forall₂.nil
  | a :: rest => List.Forall₂.cons (h a) (forallTwo_map P f h rest)

/-- Claim C9 counterexample: Render does mutate its input: on a
response holding one PlanSuccess result, the post-state of the
response differs from the input, because the LockURL field of the
pointed-to PlanSuccess is overwritten with the builder output. -/
theorem claim9_counterexample :
    (RenderFull mRen ⟨none, "", [rPlan1]⟩ CommandName.Plan "" false).2 ≠
      ⟨none, "", [rPlan1]⟩ := by decide

theorem RenderFull_snd_err (m : MarkdownRenderer) (res : CommandResponse) (cmd : CommandName)
    (lg : String) (v : Bool) (e : String) (hE : res.Error = some e) :
    (RenderFull m res cmd lg v).2 = res := by
  simp [RenderFull, hE]

theorem RenderFull_snd_fail (m : MarkdownRenderer) (res : CommandResponse) (cmd : CommandName)
    (lg : String) (v : Bool) (hE : res.Error = none) (hF : res.Failure ≠ "") :
    (RenderFull m res cmd lg v).2 = res := by
  simp [RenderFull, hE, hF]

theorem RenderFull_snd_projects (m : MarkdownRenderer) (res : CommandResponse)
    (cmd : CommandName) (lg : String) (v : Bool) (hE : res.Error = none)
    (hF : res.Failure = "") :
    (RenderFull m res cmd lg v).2 =
      { res with
        ProjectResults :=
          (res.ProjectResults.map
            (fun r => (projectFragment m (stringsTitle cmd.cmdString) r).2)) } := by
  simp [RenderFull, hE, hF, renderProjectResults, buildLoop_snd]

theorem projectFragment_snd_frame (m : MarkdownRenderer) (c : String) (r : ProjectResult) :
    (projectFragment m c r).2.Path = r.Path ∧
    (projectFragment m c r).2.Error = r.Error ∧
    (projectFragment m c r).2.Failure = r.Failure ∧
    (projectFragment m c r).2.ApplySuccess = r.ApplySuccess ∧
    ((r.Error = none ∧ r.Failure = "" ∧ r.PlanSuccess.isSome) →
      (projectFragment m c r).2.PlanSuccess = r.PlanSuccess.map
        (fun ps => { ps with LockURL := m.LockURLBuilder ps.LockKey })) ∧
    (¬ (r.Error = none ∧ r.Failure = "" ∧ r.PlanSuccess.isSome) →
      (projectFragment m c r).2.PlanSuccess = r.PlanSuccess) := by
  cases hEr : r.Error with
  | some e =>
    rw [projectFragment_err m c r e hEr]
    exact ⟨rfl, hEr, rfl, rfl, fun hc => absurd hc.1 (by simp), fun _ => rfl⟩
  | none =>
    by_cases hFa : r.Failure = ""
    · cases hP : r.PlanSuccess with
      | some ps =>
        rw [projectFragment_plan m c r ps hEr hFa hP]
        exact ⟨rfl, hEr, rfl, rfl, fun _ => rfl, fun hc => absurd ⟨rfl, hFa, rfl⟩ hc⟩
      | none =>
        by_cases hAp : r.ApplySuccess = ""
        · rw [projectFragment_fallback m c r hEr hFa hP hAp]
          exact ⟨rfl, hEr, rfl, rfl, fun hc => absurd hc.2.2 (by simp), fun _ => hP⟩
        · rw [projectFragment_apply m c r hEr hFa hP hAp]
          exact ⟨rfl, hEr, rfl, rfl, fun hc => absurd hc.2.2 (by simp), fun _ => hP⟩
    · rw [projectFragment_failure m c r hEr hFa]
      exact ⟨rfl, hEr, rfl, rfl, fun hc => absurd hc.2.1 hFa, fun _ => rfl⟩

/-- Claim C9 amended: Render leaves the top-level Error and Failure
fields unchanged, leaves the whole response unchanged when a top-level
error or failure is present, and otherwise leaves every field of every
ProjectResult unchanged except that, for a result rendered through the
PlanSuccess branch, the LockURL field of its PlanSuccess is set to the
lock-URL builder applied to its LockKey. -/
theorem claim9_frame (m : MarkdownRenderer) (res : CommandResponse) (cmd : CommandName)
    (lg : String) (v : Bool) :
    (RenderFull m res cmd lg v).2.Error = res.Error ∧
    (RenderFull m res cmd lg v).2.Failure = res.Failure ∧
    (¬ (res.Error = none ∧ res.Failure = "") → (RenderFull m res cmd lg v).2 = res) ∧
    ((res.Error = none ∧ res.Failure = "") →
      List.Forall₂ (fun r r2 =>
        r2.Path = r.Path ∧ r2.Error = r.Error ∧ r2.Failure = r.Failure ∧
        r2.ApplySuccess = r.ApplySuccess ∧
        ((r.Error = none ∧ r.Failure = "" ∧ r.PlanSuccess.isSome) →
          r2.PlanSuccess = r.PlanSuccess.map
            (fun ps => { ps with LockURL := m.LockURLBuilder ps.LockKey })) ∧
        (¬ (r.Error = none ∧ r.Failure = "" ∧ r.PlanSuccess.isSome) →
          r2.PlanSuccess = r.PlanSuccess))
        res.ProjectResults (RenderFull m res cmd lg v).2.ProjectResults) := by
  cases hE2 : res.Error with
  | some e =>
    have hsnd := RenderFull_snd_err m res cmd lg v e hE2
    exact ⟨by rw [hsnd]; exact hE2, by rw [hsnd], fun _ => hsnd,
      fun hc => absurd hc.1 (by simp)⟩
  | none =>
    by_cases hF2 : res.Failure = ""
    · have hsnd := RenderFull_snd_projects m res cmd lg v hE2 hF2
      refine ⟨by rw [hsnd]; exact hE2, by rw [hsnd], fun hc => absurd ⟨rfl, hF2⟩ hc,
        fun _ => ?_⟩
      rw [hsnd]
      exact forallTwo_map _ (fun r => (projectFragment m (stringsTitle cmd.cmdString) r).2)
        (fun r => projectFragment_snd_frame m (stringsTitle cmd.cmdString) r)
        res.ProjectResults
    · have hsnd := RenderFull_snd_fail m res cmd lg v hE2 hF2
      exact ⟨by rw [hsnd]; exact hE2, by rw [hsnd], fun _ => hsnd,
        fun hc => absurd hc.2 hF2⟩

/-- Claim C10: for every call with no top-level error or failure and
an empty ProjectResults sequence, Render selects the multi-project
template and returns the banner line naming the command and zero
directories, with no bullet entries and no per-path headers, followed
only by the optional log block. -/
theorem claim10_empty_results (m : MarkdownRenderer) (cmd : CommandName) (lg : String)
    (v : Bool) (res : CommandResponse) (hE : res.Error = none) (hF : res.Failure = "")
    (hP : res.ProjectResults = []) :
    Render m res cmd lg v =
      "Ran " ++ titleLabel cmd ++ " in " ++ "0" ++ " directories:\n" ++ "\n" ++
        logSection v lg := by
  have h := Render_multi m res cmd lg v hE hF (by rw [hP]; simp) (by rw [hP]; simp)
  rw [h, hP]
  simp only [List.map_nil, List.length_nil, sortByKey, List.insertionSort, concatAll,
    String.append_empty, String.empty_append, String.append_assoc]
  rw [show (toString (0 : Nat)) = "0" from rfl]

/-- Witness for C10 at a concrete empty response. -/
theorem claim10_empty_results_witness :
    Render mRen ⟨none, "", []⟩ CommandName.Plan "lg" true =
      "Ran " ++ titleLabel CommandName.Plan ++ " in " ++ "0" ++ " directories:\n" ++ "\n" ++
        logSection true "lg" :=
  claim10_empty_results mRen CommandName.Plan "lg" true ⟨none, "", []⟩ rfl rfl rfl
